import Mathlib

/-!
Verification of the pulsar actor-pool monitor (pulsar/async/monitor.py)
and of the task-queue application (pulsar/apps/tasks/__init__.py),
shallowly embedded in Lean.

The pool of managed actors (PoolMixin.MANAGED_ACTORS, a Python dict in
insertion order) is modelled as a list of proxy records.  Side effects on
proxies (join, stop, terminate, the manage_actor probe, log warnings) are
recorded as an event trace in the order the source emits them.  A Python
exception (the AttributeError raised by stop_actor when it receives the
integer sentinel 0) is modelled as a none result.  Floating point times
and timeouts are modelled as rationals.
-/

namespace Pulsar

/-- A managed actor proxy record: actor id, creation age, and the result of
the is_alive liveness probe during the cycle being modelled. -/
structure Proxy where
  aid : Nat
  age : Nat
  alive : Bool
deriving Repr, DecidableEq

/-- PoolMixin.JOIN_TIMEOUT = 1.0 seconds: timeout passed to join. -/
def JOIN_TIMEOUT : ℚ := 1

/-- PoolMixin.CLOSE_TIMEOUT = 3 seconds: budget of the close_actors loop. -/
def CLOSE_TIMEOUT : ℚ := 3

/-- Observable side effects of the monitor, in emission order. -/
inductive Event where
  | join (aid : Nat) (timeout : ℚ)
  | stopReq (aid : Nat)
  | terminate (aid : Nat)
  | manage (aid : Nat)
  | spawn
  | hook
  | warnCannotStop (n : Nat)
  | warnTerminated (n : Nat)
deriving Repr, DecidableEq

/-- PoolMixin.manage_actors: iterate over MANAGED_ACTORS in order; a proxy
whose is_alive probe fails is joined with JOIN_TIMEOUT and popped from the
pool; an alive proxy is counted and, following the elif chain of the source,
terminated and joined when the terminate flag is set, sent a stop request
when the stop flag is set, or probed via the manage_actor hook when the
manage flag is set.  Returns the surviving pool, the number of actors still
alive, and the emitted side effects. -/
def manage_actors : List Proxy → Bool → Bool → Bool → List Proxy × Nat × List Event
  | [], _, _, _ => ([], 0, [])
  | a :: rest, t, s, m =>
    let r := manage_actors rest t s m
    if a.alive then
      let evA : List Event :=
        if t then [Event.terminate a.aid, Event.join a.aid JOIN_TIMEOUT]
        else if s then [Event.stopReq a.aid]
        else if m then [Event.manage a.aid]
        else []
      (a :: r.1, r.2.1 + 1, evA ++ r.2.2)
    else
      (r.1, r.2.1, Event.join a.aid JOIN_TIMEOUT :: r.2.2)

theorem manage_actors_pool (pool : List Proxy) (t s m : Bool) :
    (manage_actors pool t s m).1 = pool.filter (fun a => a.alive) := by
  induction pool with
  | nil => rfl
  | cons a rest ih =>
    cases ha : a.alive <;>
      simp [manage_actors, ha, ih, List.filter_cons]

theorem manage_actors_alive (pool : List Proxy) (t s m : Bool) :
    (manage_actors pool t s m).2.1 = (pool.filter (fun a => a.alive)).length := by
  induction pool with
  | nil => rfl
  | cons a rest ih =>
    cases ha : a.alive <;>
      simp [manage_actors, ha, ih, List.filter_cons]

theorem manage_actors_join_mem (pool : List Proxy) (t s m : Bool)
    (a : Proxy) (hmem : a ∈ pool) (hdead : a.alive = false) :
    Event.join a.aid JOIN_TIMEOUT ∈ (manage_actors pool t s m).2.2 := by
  induction pool with
  | nil => cases hmem
  | cons b rest ih =>
    cases hmem with
    | head => simp [manage_actors, hdead]
    | tail _ h => cases hb : b.alive <;> simp [manage_actors, hb, ih h]

theorem manage_actors_stop_mem (pool : List Proxy) (m : Bool)
    (a : Proxy) (hmem : a ∈ pool) (halive : a.alive = true) :
    Event.stopReq a.aid ∈ (manage_actors pool false true m).2.2 := by
  induction pool with
  | nil => cases hmem
  | cons b rest ih =>
    cases hmem with
    | head => simp [manage_actors, halive]
    | tail _ h => cases hb : b.alive <;> simp [manage_actors, hb, ih h]

theorem manage_actors_terminate_mem (pool : List Proxy) (s m : Bool)
    (a : Proxy) (hmem : a ∈ pool) (halive : a.alive = true) :
    Event.terminate a.aid ∈ (manage_actors pool true s m).2.2 := by
  induction pool with
  | nil => cases hmem
  | cons b rest ih =>
    cases hmem with
    | head => simp [manage_actors, halive]
    | tail _ h => cases hb : b.alive <;> simp [manage_actors, hb, ih h]

/-- Pool state of a Monitor as set up by PoolMixin.on_init: the managed
actor pool, the target pool size num_actors (default 0, meaning any number
of actors), the in-flight spawn counter _spawing, and the running flag
consulted by PoolMixin.__call__. -/
structure MonitorState where
  managed : List Proxy
  num_actors : Nat
  spawing : Int
  running : Bool
deriving Repr, DecidableEq

/-- Lookup of a proxy by actor id in a pool, mirroring a dict access. -/
def lookupAid (pool : List Proxy) (aid : Nat) : Option Proxy :=
  pool.find? (fun p => p.aid == aid)

/-- Assignment MANAGED_ACTORS[rec.aid] = rec on a dict in insertion order:
an existing key keeps its position and gets the new value, a new key is
appended at the end. -/
def dictInsert (pool : List Proxy) (rec : Proxy) : List Proxy :=
  if pool.any (fun p => p.aid == rec.aid) then
    pool.map (fun p => if p.aid == rec.aid then rec else p)
  else pool ++ [rec]

/-- Number of spawn_actor calls issued by PoolMixin.spawn_actors: the body
runs to_spawn = num_actors - len(MANAGED_ACTORS) times exactly when
num_actors is nonzero, to_spawn is positive and the _spawing counter is
falsy (zero). -/
def spawn_count (s : MonitorState) : Nat :=
  let to_spawn : Int := (s.num_actors : Int) - (s.managed.length : Int)
  if s.num_actors ≠ 0 ∧ 0 < to_spawn ∧ s.spawing = 0 then to_spawn.toNat else 0

/-- Monitor.spawn_actor: asks the arbiter to spawn a new actor of the
monitored class (the arbiter call itself is outside this module) and
increments the _spawing counter; the pool is updated only later, by the
_spawn_actor callback. -/
def spawn_actor (s : MonitorState) : MonitorState × List Event :=
  ({ s with spawing := s.spawing + 1 }, [Event.spawn])

/-- The for loop of PoolMixin.spawn_actors: n calls to spawn_actor. -/
def iterate_spawn : Nat → MonitorState → MonitorState × List Event
  | 0, s => (s, [])
  | n + 1, s =>
    let r := spawn_actor s
    let r2 := iterate_spawn n r.1
    (r2.1, r.2 ++ r2.2)

/-- PoolMixin.spawn_actors: spawn new actors if needed. -/
def spawn_actors (s : MonitorState) : MonitorState × List Event :=
  iterate_spawn (spawn_count s) s

/-- Monitor._spawn_actor, the callback run when a spawn completes: the
_spawing counter is decremented, the proxy record is looked up in the
arbiter pool (a missing key would raise KeyError, modelled as none) and the
very same record is stored in the monitor pool under its actor id. -/
def _spawn_actor (arb : List Proxy) (s : MonitorState) (aid : Nat) :
    Option MonitorState :=
  match lookupAid arb aid with
  | none => none
  | some rec =>
    some { s with spawing := s.spawing - 1, managed := dictInsert s.managed rec }

/-- sys.maxsize on a 64-bit build. -/
def maxsize : Nat := 2 ^ 63 - 1

/-- The victim-selection loop of PoolMixin.stop_actors: w starts as the
integer 0 (modelled as none, it is not a proxy) and kage as sys.maxsize;
for each worker the source executes, when worker.age < kage, the update
w, kage = w, age, which reassigns w to itself, so the candidate worker is
discarded. -/
def select_victim (pool : List Proxy) : Option Proxy × Nat :=
  pool.foldl
    (fun p worker => if worker.age < p.2 then (p.1, worker.age) else p)
    (none, maxsize)

/-- Monitor.stop_actor: called with the integer sentinel 0 (none) it raises
AttributeError, since an int has no is_alive; called with a dead proxy it
pops the proxy from the pool; called with an alive proxy it requests a
remote stop.  A raised exception is modelled as none. -/
def stop_actor (pool : List Proxy) : Option Proxy → Option (List Proxy × List Event)
  | none => none
  | some a =>
    if a.alive then some (pool, [Event.stopReq a.aid])
    else some (pool.filter (fun p => p.aid ≠ a.aid), [])

/-- The for loop of PoolMixin.stop_actors: num_to_kill rounds, each
selecting a victim over the current pool and passing it to stop_actor; an
exception aborts the cycle. -/
def stop_actors_go : Nat → List Proxy → List Event × Option (List Proxy)
  | 0, pool => ([], some pool)
  | n + 1, pool =>
    match stop_actor pool (select_victim pool).1 with
    | none => ([], none)
    | some (pool2, evs) =>
      let r := stop_actors_go n pool2
      (evs ++ r.1, r.2)

/-- PoolMixin.stop_actors: when num_actors is nonzero, run the kill loop
num_to_kill = len(MANAGED_ACTORS) - num_actors times (zero times when the
difference is not positive). -/
def stop_actors (s : MonitorState) : List Event × Option (List Proxy) :=
  if s.num_actors ≠ 0 then
    stop_actors_go (((s.managed.length : Int) - (s.num_actors : Int)).toNat) s.managed
  else ([], some s.managed)

/-- Monitor.on_task, the pool maintenance cycle: manage_actors with default
flags (manage=True), then spawn_actors, then stop_actors, then the
monitor_task hook (Event.hook).  An exception raised inside stop_actors
aborts the cycle before the hook, yielding none. -/
def on_task (s : MonitorState) : List Event × Option MonitorState :=
  let rm := manage_actors s.managed false false true
  let s1 : MonitorState := { s with managed := rm.1 }
  let rs := spawn_actors s1
  let s2 := rs.1
  match stop_actors s2 with
  | (evK, none) => (rm.2.2 ++ rs.2 ++ evK, none)
  | (evK, some pool3) =>
    (rm.2.2 ++ rs.2 ++ evK ++ [Event.hook], some { s2 with managed := pool3 })

/-- PoolMixin.__call__: run on_task when the monitor is running, otherwise
do nothing. -/
def callMonitor (s : MonitorState) : List Event × Option MonitorState :=
  if s.running then on_task s else ([], some s)

/-- Deaths that occur between two polls of the close loop: the listed
actor ids fail their next is_alive probe. -/
def applyDeaths (died : List Nat) (pool : List Proxy) : List Proxy :=
  pool.map (fun p => if p.aid ∈ died then { p with alive := false } else p)

/-- The while loop of PoolMixin.close_actors.  Each poll is driven by one
environment observation (died, dt): the actors that died since the last
poll and the elapsed time dt = time.time() - start measured at this poll.
The body reaps with manage_actors(manage=False); then, when
dt > CLOSE_TIMEOUT, it warns with the residual count, force-terminates the
remaining actors with manage_actors(terminate=True), warns again and leaves
the loop; otherwise it leaves the loop exactly when no alive actor remains.
The Bool result records whether the loop finished (false means the supplied
observations ran out first). -/
def close_loop : List Proxy → List (List Nat × ℚ) → List Event × Bool
  | _, [] => ([], false)
  | pool, (died, dt) :: rest =>
    let pool1 := applyDeaths died pool
    let r := manage_actors pool1 false false false
    if CLOSE_TIMEOUT < dt then
      let r2 := manage_actors r.1 true false true
      (r.2.2 ++ [Event.warnCannotStop r.2.1] ++ r2.2.2 ++
        [Event.warnTerminated r2.2.1], true)
    else if r.2.1 = 0 then (r.2.2, true)
    else
      let rl := close_loop r.1 rest
      (r.2.2 ++ rl.1, rl.2)

/-- PoolMixin.close_actors: first manage_actors(stop=True), which sends a
stop request to every alive managed actor; when some are still alive it
enters the polling loop. -/
def close_actors (pool : List Proxy) (env : List (List Nat × ℚ)) :
    List Event × Bool :=
  let r := manage_actors pool false true true
  if r.2.1 = 0 then (r.2.2, true)
  else
    let rl := close_loop r.1 env
    (r.2.2 ++ rl.1, rl.2)

/-- The slice of a task backend consulted by TaskQueue.monitor_task: the
next_run timestamp (a datetime, modelled as a rational). -/
structure Backend where
  next_run : ℚ
deriving DecidableEq

/-- The paren-less attribute access monitor.running appearing in the tick
guard of TaskQueue.monitor_task.  In this snapshot running is a method, not
a boolean: PoolMixin.__call__ invokes self.running() with parentheses.  So
the attribute access yields a bound method object; wouldReturn records the
value a call to it would have returned. -/
structure RunningMethod where
  wouldReturn : Bool
deriving Repr, DecidableEq

/-- Python truthiness of a bound method object: always True, whatever the
method would return if it were called. -/
def methodTruthy (_ : RunningMethod) : Bool := true

/-- TaskQueue.monitor_task: after the application-level hook of the parent
class (which does not touch the backend), the guard reads
if self.backend and monitor.running, where monitor.running is the bound
method itself, not a call, so its truthiness test always passes; the
backend tick then runs when backend.next_run <= datetime.now().  The
result says whether backend.tick() was invoked on this turn. -/
def tq_monitor_task (backend : Option Backend) (running : RunningMethod)
    (now : ℚ) : Bool :=
  match backend with
  | none => false
  | some b => methodTruthy running && decide (b.next_run ≤ now)

/-- The slice of a pulsar Config consulted here: the schedule_periodic
flag. -/
structure TqCfg where
  schedule_periodic : Bool
deriving Repr, DecidableEq

/-- The spawn parameters produced for a worker: the config of the app copy
handed to the worker (params[app].cfg). -/
structure ActorParams where
  app_cfg : TqCfg
deriving Repr, DecidableEq

/-- TaskQueue.actorparams: first delegate to the parent class actorparams
(an arbitrary transformation f of the parameters, given the monitor
config), then force schedule_periodic to False in the worker app config, so
that workers do not schedule periodic tasks. -/
def tq_actorparams (f : TqCfg → ActorParams → ActorParams)
    (monitorCfg : TqCfg) (params : ActorParams) : ActorParams :=
  let params2 := f monitorCfg params
  { params2 with app_cfg := { params2.app_cfg with schedule_periodic := false } }

/-- Values stored in the info dictionary built by Monitor._info. -/
inductive InfoVal where
  | str (v : String)
  | nat (v : Nat)
  | workers (v : List Nat)
deriving Repr, DecidableEq

/-- Monitor._info: the data dictionary, in insertion order, built for one
monitor: actor_class, workers, num_actors (the size of the managed pool),
concurrency, listen, name and age; when the monitor has an I/O queue
(ioqueue is not None) the dict is updated with ioqueue and ioqueue_size.
The workers payload is abstracted to the list of worker actor ids. -/
def monitor_info (actor_class : String) (workersResult : List Nat)
    (numManaged : Nat) (concurrency : String) (listen : String)
    (name : String) (age : Nat) (ioqueue : Option (String × Nat)) :
    List (String × InfoVal) :=
  [("actor_class", InfoVal.str actor_class),
   ("workers", InfoVal.workers workersResult),
   ("num_actors", InfoVal.nat numManaged),
   ("concurrency", InfoVal.str concurrency),
   ("listen", InfoVal.str listen),
   ("name", InfoVal.str name),
   ("age", InfoVal.nat age)] ++
  (match ioqueue with
   | none => []
   | some (tqs, size) => [("ioqueue", InfoVal.str tqs),
                          ("ioqueue_size", InfoVal.nat size)])

theorem iterate_spawn_events (n : Nat) (s : MonitorState) :
    (iterate_spawn n s).2 = List.replicate n Event.spawn := by
  induction n generalizing s with
  | zero => rfl
  | succ k ih => simp [iterate_spawn, spawn_actor, ih, List.replicate_succ]

theorem select_victim_fst_foldl (pool : List Proxy) (w : Option Proxy) (k : Nat) :
    (pool.foldl
      (fun p worker => if worker.age < p.2 then (p.1, worker.age) else p)
      (w, k)).1 = w := by
  induction pool generalizing w k with
  | nil => rfl
  | cons a rest ih =>
    simp only [List.foldl_cons]
    by_cases h : a.age < k <;> simp [h, ih]

theorem select_victim_none (pool : List Proxy) : (select_victim pool).1 = none :=
  select_victim_fst_foldl pool none maxsize

theorem stop_actors_go_succ (n : Nat) (pool : List Proxy) :
    stop_actors_go (n + 1) pool = ([], none) := by
  simp [stop_actors_go, select_victim_none, stop_actor]

theorem find?_map_update (pool : List Proxy) (rec : Proxy)
    (h : pool.any (fun p => p.aid == rec.aid) = true) :
    (pool.map (fun p => if p.aid == rec.aid then rec else p)).find?
      (fun p => p.aid == rec.aid) = some rec := by
  induction pool with
  | nil => cases h
  | cons b rest ih =>
    by_cases hb : (b.aid == rec.aid) = true
    · simp [List.find?, hb]
    · have hrest : rest.any (fun p => p.aid == rec.aid) = true := by
        simpa [List.any_cons, hb] using h
      simpa [List.find?, hb] using ih hrest

theorem lookupAid_dictInsert (pool : List Proxy) (rec : Proxy) :
    lookupAid (dictInsert pool rec) rec.aid = some rec := by
  unfold dictInsert lookupAid
  by_cases h : pool.any (fun p => p.aid == rec.aid) = true
  · simpa [h] using find?_map_update pool rec h
  · have hnone : pool.find? (fun p => p.aid == rec.aid) = none := by
      rw [List.find?_eq_none]
      intro x hx hbeq
      exact h (List.any_eq_true.mpr ⟨x, hx, hbeq⟩)
    simp [h, List.find?_append, hnone, List.find?]

/-- Pool with three alive actors of ages 5, 7 and 9. -/
def c1_pool : List Proxy :=
  [{ aid := 1, age := 5, alive := true },
   { aid := 2, age := 7, alive := true },
   { aid := 3, age := 9, alive := true }]

/-- Monitor with three managed actors but num_actors = 2: one trim due. -/
def c1_state : MonitorState :=
  { managed := c1_pool, num_actors := 2, spawing := 0, running := true }

/-- C1: with three managed actors and num_actors = 2, stop_actors should
stop exactly one actor, the oldest one (aid 1, age 5).  Instead the
selection loop of the source reassigns w to itself (w, kage = w, age), so
the selected victim stays the integer sentinel 0 rather than any proxy,
and stop_actor is called on it, raising AttributeError: no actor is
stopped and the pool keeps all three actors. -/
theorem stop_actors_discards_oldest_bug :
    (select_victim c1_pool).1 = none ∧
    stop_actors c1_state = ([], none) := by decide

/-- Running monitor with two alive managed actors and num_actors = 1: the
maintenance cycle needs a trim. -/
def c2_state : MonitorState :=
  { managed := [{ aid := 1, age := 5, alive := true },
                { aid := 2, age := 7, alive := true }],
    num_actors := 1, spawing := 0, running := true }

/-- Running monitor below its target size: no trim needed. -/
def c2_ok_state : MonitorState :=
  { managed := [{ aid := 1, age := 5, alive := true }],
    num_actors := 2, spawing := 0, running := true }

/-- The same monitor, not running. -/
def c2_idle_state : MonitorState :=
  { managed := [{ aid := 1, age := 5, alive := true }],
    num_actors := 2, spawing := 0, running := false }

/-- C2: the maintenance cycle of Monitor.on_task does run manage_actors,
spawn_actors, stop_actors and the monitor_task hook in this order, and a
non-running monitor does nothing (third conjunct); but on a turn that
requires a trim the victim-selection slip in stop_actors makes the cycle
raise before the hook, so monitor_task is not invoked (first conjunct),
contradicting the documented behaviour of on_task. -/
theorem on_task_skips_hook_on_trim_bug :
    ((callMonitor c2_state).2 = none ∧
      Event.hook ∉ (callMonitor c2_state).1) ∧
    (callMonitor c2_ok_state).1 = [Event.manage 1, Event.spawn, Event.hook] ∧
    callMonitor c2_idle_state = ([], some c2_idle_state) := by decide

/-- C5: manage_actors removes exactly the proxies whose is_alive probe
fails (the surviving pool is the alive filter of the input pool), returns
the number of actors still alive, emits a join with JOIN_TIMEOUT for every
removed proxy, and never removes a proxy whose probe succeeds, whatever the
terminate, stop and manage flags are. -/
theorem manage_actors_reaps_dead_only (pool : List Proxy) (t s m : Bool) :
    (manage_actors pool t s m).1 = pool.filter (fun a => a.alive) ∧
    (manage_actors pool t s m).2.1 = (pool.filter (fun a => a.alive)).length ∧
    (∀ a ∈ pool, a.alive = false →
      Event.join a.aid JOIN_TIMEOUT ∈ (manage_actors pool t s m).2.2) ∧
    (∀ a ∈ pool, a.alive = true → a ∈ (manage_actors pool t s m).1) := by
  refine ⟨manage_actors_pool pool t s m, manage_actors_alive pool t s m,
    fun a ha hd => manage_actors_join_mem pool t s m a ha hd,
    fun a ha hl => ?_⟩
  rw [manage_actors_pool]
  exact List.mem_filter.mpr ⟨ha, by simp [hl]⟩

/-- Pool with one alive and one dead actor. -/
def c5_pool : List Proxy :=
  [{ aid := 1, age := 0, alive := true },
   { aid := 2, age := 3, alive := false }]

/-- Witness for manage_actors_reaps_dead_only at a concrete pool: the dead
actor aid 2 is joined with JOIN_TIMEOUT even under terminate and stop. -/
theorem manage_actors_reaps_dead_only_witness :
    Event.join 2 JOIN_TIMEOUT ∈ (manage_actors c5_pool true true true).2.2 :=
  (manage_actors_reaps_dead_only c5_pool true true true).2.2.1
    { aid := 2, age := 3, alive := false } (by decide) rfl

/-- C10: when num_actors is 0 (the default), the pool-size logic is
disabled: spawn_actors spawns nothing and returns the state unchanged, and
stop_actors stops nothing and leaves MANAGED_ACTORS unchanged. -/
theorem unlimited_pool_is_untouched (s : MonitorState) (h : s.num_actors = 0) :
    spawn_count s = 0 ∧ spawn_actors s = (s, []) ∧
    stop_actors s = ([], some s.managed) := by
  have hc : spawn_count s = 0 := by simp [spawn_count, h]
  refine ⟨hc, ?_, ?_⟩
  · rw [spawn_actors, hc]; rfl
  · simp [stop_actors, h]

/-- Monitor with an unconstrained pool (num_actors = 0). -/
def c10_state : MonitorState :=
  { managed := [{ aid := 4, age := 2, alive := true }],
    num_actors := 0, spawing := 0, running := true }

/-- Witness for unlimited_pool_is_untouched at a concrete state. -/
theorem unlimited_pool_is_untouched_witness :
    stop_actors c10_state = ([], some c10_state.managed) :=
  (unlimited_pool_is_untouched c10_state rfl).2.2

/-- C3: close_actors first sends a stop request to every alive managed
actor (those events are in its trace whatever the later polls observe);
and whenever a poll of its loop observes an elapsed time dt beyond
CLOSE_TIMEOUT, the loop force-terminates every managed actor that is still
alive after that poll reaps the dead, logs a warning carrying the residual
alive count, and completes on that very poll.  The pool at the timed-out
poll is quantified, so the statement covers every reachable loop state. -/
theorem close_actors_two_phase
    (pool pool2 : List Proxy) (env rest : List (List Nat × ℚ))
    (died : List Nat) (dt : ℚ) (hdt : CLOSE_TIMEOUT < dt) :
    (∀ a ∈ pool, a.alive = true →
      Event.stopReq a.aid ∈ (close_actors pool env).1) ∧
    (close_loop pool2 ((died, dt) :: rest)).2 = true ∧
    Event.warnCannotStop
        ((manage_actors (applyDeaths died pool2) false false false).2.1)
      ∈ (close_loop pool2 ((died, dt) :: rest)).1 ∧
    (∀ a ∈ (manage_actors (applyDeaths died pool2) false false false).1,
      Event.terminate a.aid ∈ (close_loop pool2 ((died, dt) :: rest)).1) := by
  refine ⟨?_, ?_, ?_, ?_⟩
  · intro a ha hl
    have hs := manage_actors_stop_mem pool true a ha hl
    unfold close_actors
    by_cases hz : (manage_actors pool false true true).2.1 = 0 <;>
      simp [hz, hs]
  · simp [close_loop, if_pos hdt]
  · simp [close_loop, if_pos hdt]
  · intro a ha
    have halive : a.alive = true := by
      rw [manage_actors_pool] at ha
      exact (List.mem_filter.mp ha).2
    have ht := manage_actors_terminate_mem
      (manage_actors (applyDeaths died pool2) false false false).1 false true
      a ha halive
    simp [close_loop, if_pos hdt, ht]

/-- Two alive managed actors, to be closed. -/
def c3_pool : List Proxy :=
  [{ aid := 1, age := 0, alive := true },
   { aid := 2, age := 1, alive := true }]

/-- Witness for close_actors_two_phase: a close over c3_pool whose single
poll happens at dt = 4 > CLOSE_TIMEOUT. -/
theorem close_actors_two_phase_witness :
    CLOSE_TIMEOUT < (4 : ℚ) ∧
    Event.stopReq 1 ∈ (close_actors c3_pool [([2], 4)]).1 ∧
    (close_loop c3_pool [([2], (4 : ℚ))]).2 = true := by
  have h := close_actors_two_phase c3_pool c3_pool [([2], (4 : ℚ))] [] [2] 4
    (by norm_num [CLOSE_TIMEOUT])
  exact ⟨by norm_num [CLOSE_TIMEOUT],
    h.1 { aid := 1, age := 0, alive := true } (by decide) rfl, h.2.1⟩

/-- C4: spawn_actors initiates exactly num_actors - len(MANAGED_ACTORS)
spawns when the pool is below target and the _spawing counter is zero,
initiates none while the counter is nonzero, and emits one spawn per
initiated actor; every spawn_actor call increments the counter, and every
completed spawn (the _spawn_actor callback) decrements it. -/
theorem spawn_actors_serialized (s : MonitorState) (h : 0 < s.num_actors) :
    (s.managed.length < s.num_actors → s.spawing = 0 →
      spawn_count s = s.num_actors - s.managed.length) ∧
    (s.spawing ≠ 0 → spawn_count s = 0) ∧
    (spawn_actors s).2 = List.replicate (spawn_count s) Event.spawn ∧
    (∀ t : MonitorState, (spawn_actor t).1.spawing = t.spawing + 1) ∧
    (∀ (arb : List Proxy) (t : MonitorState) (aid : Nat) (rec : Proxy),
      lookupAid arb aid = some rec →
      ∃ t2, _spawn_actor arb t aid = some t2 ∧ t2.spawing = t.spawing - 1) := by
  refine ⟨?_, ?_, iterate_spawn_events _ s, fun t => rfl, ?_⟩
  · intro hlen hz
    have hcond : s.num_actors ≠ 0 ∧
        0 < (s.num_actors : Int) - (s.managed.length : Int) ∧ s.spawing = 0 :=
      ⟨by omega, by omega, hz⟩
    simp only [spawn_count, if_pos hcond]
    omega
  · intro hz
    have : ¬(s.num_actors ≠ 0 ∧
        0 < (s.num_actors : Int) - (s.managed.length : Int) ∧ s.spawing = 0) := by
      intro hc
      exact hz hc.2.2
    simp only [spawn_count, if_neg this]
  · intro arb t aid rec hrec
    exact ⟨{ t with
               spawing := t.spawing - 1,
               managed := dictInsert t.managed rec },
      by simp [_spawn_actor, hrec], rfl⟩

/-- Monitor below target: one managed actor, num_actors = 3, no spawn in
flight. -/
def c4_state : MonitorState :=
  { managed := [{ aid := 1, age := 0, alive := true }],
    num_actors := 3, spawing := 0, running := true }

/-- Witness for spawn_actors_serialized: the concrete monitor initiates
exactly 3 - 1 = 2 spawns. -/
theorem spawn_actors_serialized_witness : spawn_count c4_state = 2 := by
  have h := (spawn_actors_serialized c4_state (by decide)).1 (by decide) rfl
  simpa [c4_state] using h

/-- C6: code bug in the tick guard of TaskQueue.monitor_task: the source
tests monitor.running without calling it, and a bound method is always
truthy, so the backend is ticked even when the monitor is not running
(first conjunct), against the guard the source visibly intends; the
next_run side of the guard is honoured: while now is strictly before
next_run no tick happens (second conjunct). -/
theorem tq_tick_ignores_running_state :
    tq_monitor_task (some { next_run := 0 }) { wouldReturn := false } 1
      = true ∧
    tq_monitor_task (some { next_run := 5 }) { wouldReturn := false } 3
      = false := by decide

/-- C7: whatever the parent-class actorparams does and whatever the
schedule_periodic flag of the monitor config is, the parameters produced
for a worker have schedule_periodic forced to False in the worker app
config. -/
theorem actorparams_forces_schedule_periodic_false
    (f : TqCfg → ActorParams → ActorParams) (monitorCfg : TqCfg)
    (params : ActorParams) :
    (tq_actorparams f monitorCfg params).app_cfg.schedule_periodic = false :=
  rfl

/-- Proxy record used in the dual-membership scenarios. -/
def c8_rec : Proxy := { aid := 7, age := 1, alive := true }

/-- Arbiter pool already holding the freshly spawned proxy, as
Monitor._spawn_actor finds it. -/
def c8_arbiter : List Proxy := [c8_rec]

/-- Monitor awaiting one spawn completion. -/
def c8_monitor : MonitorState :=
  { managed := [], num_actors := 1, spawing := 1, running := true }

/-- C8 counterexample: after Monitor._spawn_actor completes the spawn of
actor 7, the very same proxy record is an entry of the monitor pool and
still an entry of the arbiter pool, so the record is not owned exclusively
by the monitor MANAGED_ACTORS. -/
theorem spawned_actor_in_both_pools_cex :
    Option.map (fun t => lookupAid t.managed 7)
        (_spawn_actor c8_arbiter c8_monitor 7) = some (some c8_rec) ∧
    lookupAid c8_arbiter 7 = some c8_rec := by decide

/-- C8 amended: every spawn completed through Monitor._spawn_actor leaves
the proxy record in the pools of both the monitor and the arbiter: the
record the monitor stores is exactly the record looked up in the arbiter
pool, which keeps its own entry. -/
theorem spawned_actor_dual_membership (arb : List Proxy) (s : MonitorState)
    (aid : Nat) (rec : Proxy) (h : lookupAid arb aid = some rec) :
    ∃ s2, _spawn_actor arb s aid = some s2 ∧
      lookupAid s2.managed aid = some rec ∧ lookupAid arb aid = some rec := by
  have h2 : arb.find? (fun p => p.aid == aid) = some rec := h
  have hb := List.find?_some h2
  have haid : rec.aid = aid := Nat.eq_of_beq_eq_true (by simpa using hb)
  refine ⟨{ s with
              spawing := s.spawing - 1,
              managed := dictInsert s.managed rec },
    by simp [_spawn_actor, h], ?_, h⟩
  rw [← haid]
  exact lookupAid_dictInsert s.managed rec

/-- Witness for spawned_actor_dual_membership at a concrete arbiter pool
and monitor state. -/
theorem spawned_actor_dual_membership_witness :
    ∃ s2, _spawn_actor c8_arbiter
        { managed := [], num_actors := 2, spawing := 1, running := true } 7
        = some s2 ∧
      lookupAid s2.managed 7 = some c8_rec ∧
      lookupAid c8_arbiter 7 = some c8_rec :=
  spawned_actor_dual_membership c8_arbiter
    { managed := [], num_actors := 2, spawing := 1, running := true } 7 c8_rec
    (by decide)

/-- C9: the info dictionary built by Monitor._info always contains the keys
name, actor_class, num_actors, concurrency, workers and age, and it
contains the keys ioqueue and ioqueue_size exactly when the monitor has an
I/O queue. -/
theorem monitor_info_keys (actor_class : String) (workersResult : List Nat)
    (numManaged : Nat) (concurrency listen name : String) (age : Nat)
    (ioqueue : Option (String × Nat)) :
    ("name" ∈ (monitor_info actor_class workersResult numManaged concurrency
        listen name age ioqueue).map Prod.fst ∧
     "actor_class" ∈ (monitor_info actor_class workersResult numManaged
        concurrency listen name age ioqueue).map Prod.fst ∧
     "num_actors" ∈ (monitor_info actor_class workersResult numManaged
        concurrency listen name age ioqueue).map Prod.fst ∧
     "concurrency" ∈ (monitor_info actor_class workersResult numManaged
        concurrency listen name age ioqueue).map Prod.fst ∧
     "workers" ∈ (monitor_info actor_class workersResult numManaged
        concurrency listen name age ioqueue).map Prod.fst ∧
     "age" ∈ (monitor_info actor_class workersResult numManaged concurrency
        listen name age ioqueue).map Prod.fst) ∧
    (("ioqueue" ∈ (monitor_info actor_class workersResult numManaged
        concurrency listen name age ioqueue).map Prod.fst ∧
      "ioqueue_size" ∈ (monitor_info actor_class workersResult numManaged
        concurrency listen name age ioqueue).map Prod.fst) ↔
      ioqueue.isSome = true) := by
  cases ioqueue with
  | none => simp [monitor_info]
  | some q => cases q with
    | mk tqs size => simp [monitor_info]

/-- Witness for monitor_info_keys: a monitor with an I/O queue carries the
ioqueue and ioqueue_size keys. -/
theorem monitor_info_keys_witness :
    "ioqueue" ∈ (monitor_info "a" [] 0 "process" "None" "test" 1
        (some ("Q", 2))).map Prod.fst ∧
    "ioqueue_size" ∈ (monitor_info "a" [] 0 "process" "None" "test" 1
        (some ("Q", 2))).map Prod.fst :=
  (monitor_info_keys "a" [] 0 "process" "None" "test" 1
    (some ("Q", 2))).2.mpr rfl

/-- Witness for actorparams_forces_schedule_periodic_false at a monitor
config where schedule_periodic is True. -/
theorem actorparams_forces_schedule_periodic_false_witness :
    (tq_actorparams (fun _ p => p) { schedule_periodic := true }
      { app_cfg := { schedule_periodic := true } }).app_cfg.schedule_periodic
      = false :=
  actorparams_forces_schedule_periodic_false (fun _ p => p)
    { schedule_periodic := true } { app_cfg := { schedule_periodic := true } }

end Pulsar
